import Mathlib

/-!
Verification development for the NeMo repository fragment consisting of
`nemo/lightning/pytorch/plugins/mixed_precision.py` and
`nemo/lightning/pytorch/trainer.py`.

The Python code is shallowly embedded: each method becomes a Lean function
over explicit state records, side effects on the optimizer/scaler are
recorded as an event trace, and Python exceptions (assertion failures,
unbound locals) become an explicit error component.
-/

/-- Floating point dtypes relevant to the plugins.  `int64` stands for any
non-floating dtype so that "fp32 leaves" is a proper subset of leaves. -/
inductive DType where
  | float16
  | bfloat16
  | float32
  | int64
  deriving DecidableEq, Repr

/-- A tensor: a dtype tag plus an abstract payload standing for the data. -/
structure Tensor where
  dtype : DType
  payload : Nat
  deriving DecidableEq, Repr

/-- Embedding of `val.half()`: cast the tensor to float16. -/
def Tensor.half (t : Tensor) : Tensor := { t with dtype := DType.float16 }

/-- Embedding of `val.bfloat16()`: cast the tensor to bfloat16. -/
def Tensor.bfloat16 (t : Tensor) : Tensor := { t with dtype := DType.bfloat16 }

/-- Embedding of `val.float()`: cast the tensor to float32. -/
def Tensor.float (t : Tensor) : Tensor := { t with dtype := DType.float32 }

/-- Whether a dtype is a floating-point dtype (torch casts only these in
`module.half()` / `module.bfloat16()`). -/
def DType.isFloating : DType → Bool
  | DType.float16 => true
  | DType.bfloat16 => true
  | DType.float32 => true
  | DType.int64 => false

/-- A torch module, reduced to its list of parameter tensors. -/
structure TorchModule where
  params : List Tensor
  deriving DecidableEq, Repr

/-- Embedding of `module.half()`: cast all floating-point parameters to float16. -/
def TorchModule.half (m : TorchModule) : TorchModule :=
  { params := m.params.map (fun t => if t.dtype.isFloating then Tensor.half t else t) }

/-- Embedding of `module.bfloat16()`: cast all floating-point parameters to bfloat16. -/
def TorchModule.bfloat16 (m : TorchModule) : TorchModule :=
  { params := m.params.map (fun t => if t.dtype.isFloating then Tensor.bfloat16 t else t) }

/-- Modelled from the spec: the `GradScaler` class imported from
`nemo_ext.lightning._strategy_lib` is not under `src/`; the spec describes it
as "a dynamic multiplicative scale factor" state object, and the plugin code
only ever constructs it with these three keyword arguments, so it is modelled
as the record of those constructor arguments. -/
structure GradScaler where
  init_scale : Nat
  growth_interval : Nat
  hysteresis : Nat
  deriving DecidableEq, Repr

/-- The scaler the plugin constructs on the fp16 path:
`GradScaler(init_scale=2**32, growth_interval=1000, hysteresis=2)`. -/
def defaultGradScaler : GradScaler :=
  { init_scale := 2 ^ 32, growth_interval := 1000, hysteresis := 2 }

/-- Modelled from the spec: `MainParamsOptimizerWrapper` lives in
`nemo.core.optim`, outside `src/`; the spec calls it "an optimizer wrapper
maintaining master fp32 parameters".  An optimizer is either a plain torch
optimizer or such a wrapper, which records the two constructor flags the
plugin passes (`fp32_grad_accum`, `contiguous_grad_bucket`). -/
inductive Optimizer where
  | base (id : Nat)
  | mainParamsWrapper (inner : Optimizer) (fp32_grad_accum : Bool)
      (contiguous_grad_bucket : Bool)
  deriving DecidableEq, Repr

/-- Embedding of `isinstance(optimizer, MainParamsOptimizerWrapper)`. -/
def Optimizer.isMainParamsWrapper : Optimizer → Bool
  | Optimizer.base _ => false
  | Optimizer.mainParamsWrapper _ _ _ => true

/-- Embedding of the `optimizer.fp32_grad_accumulation` attribute access.
Only `MainParamsOptimizerWrapper` has this property (it returns the stored
`fp32_grad_accum` flag); on a plain optimizer the access raises
`AttributeError`, modelled as `none`. -/
def Optimizer.fp32_grad_accumulation : Optimizer → Option Bool
  | Optimizer.base _ => none
  | Optimizer.mainParamsWrapper _ f _ => some f

/-- The model argument of `optimizer_step`, reduced to the two facts the code
inspects: whether it is a `pl.LightningModule` and, if so, its
`automatic_optimization` flag. -/
structure ModelRef where
  isLightningModule : Bool
  automatic_optimization : Bool
  deriving DecidableEq, Repr

/-- Observable events performed by `optimizer_step`, in program order. -/
inductive Event where
  | closure_call
  | copy_model_grads_to_main_grads
  | unscale_main_grads
  | after_closure
  | optimizer_step_call
  | scaler_step
  | scaler_update
  | super_optimizer_step
  deriving DecidableEq, Repr

/-- Result of running `optimizer_step`: the trace of events that executed,
and the Python exception message if one was raised (events already in the
trace happened before the exception). -/
structure StepOutcome where
  trace : List Event
  error : Option String
  deriving DecidableEq, Repr

/-- The state carried by a `MegatronMixedPrecision` plugin instance after
construction: the fields stored by `super().__init__` (precision, device,
scaler) plus the fields assigned in the subclass `__init__`. -/
structure MegatronMixedPrecision where
  precision : String
  device : String
  scaler : Option GradScaler
  dtype : Option DType
  float16_convertor : Tensor → Tensor
  amp_02 : Bool

/-- The partial state set by lines 37-46 of `__init__`: the scaler is chosen
from the precision (overwriting the `scaler` argument) and then
`super().__init__(precision, device, scaler)` stores these three fields. -/
structure MixedPrecisionBase where
  precision : String
  device : String
  scaler : Option GradScaler
  deriving DecidableEq, Repr

namespace MegatronMixedPrecision

/-- Embedding of `MegatronMixedPrecision.__init__` through the
`super().__init__(precision, device, scaler)` call: the `scaler` argument is
unconditionally overwritten (set to `None` for `"bf16-mixed"`, otherwise to a
fresh `GradScaler(init_scale=2**32, growth_interval=1000, hysteresis=2)`). -/
def initBase (precision : String) (device : String)
    (scaler0 : Option GradScaler) : MixedPrecisionBase :=
  let scaler : Option GradScaler :=
    if precision = "bf16-mixed" then none else some defaultGradScaler
  { precision := precision, device := device, scaler := scaler }

/-- Embedding of the whole `MegatronMixedPrecision.__init__`.  After the
base initialisation, `dtype` and the local `float16_convertor` are bound only
for `"16-mixed"` and `"bf16-mixed"`; for any other precision the assignment
`self.float16_convertor = float16_convertor` reads an unbound local and the
constructor raises.  (`torch.set_autocast_gpu_dtype` is an external torch
call with no plugin-visible state and is not modelled.) -/
def init (precision : String) (amp_02 : Bool) (device : String)
    (scaler0 : Option GradScaler) : Except String MegatronMixedPrecision :=
  let base := initBase precision device scaler0
  if precision = "16-mixed" then
    Except.ok
      { precision := base.precision, device := base.device,
        scaler := base.scaler, dtype := some DType.float16,
        float16_convertor := fun val => Tensor.half val, amp_02 := amp_02 }
  else if precision = "bf16-mixed" then
    Except.ok
      { precision := base.precision, device := base.device,
        scaler := base.scaler, dtype := some DType.bfloat16,
        float16_convertor := fun val => Tensor.bfloat16 val, amp_02 := amp_02 }
  else
    Except.error
      "UnboundLocalError: local variable float16_convertor referenced before assignment"

/-- Embedding of `MegatronMixedPrecision.convert_optimizer`. -/
def convert_optimizer (p : MegatronMixedPrecision) (optimizer : Optimizer) :
    Optimizer :=
  if optimizer.isMainParamsWrapper || !p.amp_02 then optimizer
  else Optimizer.mainParamsWrapper optimizer true true

/-- Embedding of `MegatronMixedPrecision.connect`.  The model and the
lr_scheduler list are opaque values passed through. -/
def connect {M L : Type} (p : MegatronMixedPrecision) (model : M)
    (optimizers : List Optimizer) (lr_schedulers : L) :
    M × List Optimizer × L :=
  match optimizers with
  | [] => (model, optimizers, lr_schedulers)
  | o :: rest =>
    if !p.amp_02 || o.isMainParamsWrapper then (model, o :: rest, lr_schedulers)
    else (model, p.convert_optimizer o :: rest, lr_schedulers)

/-- Embedding of `MegatronMixedPrecision.convert_module`. -/
def convert_module (p : MegatronMixedPrecision) (module : TorchModule) : TorchModule :=
  if p.precision = "bf16-mixed" then module.bfloat16
  else if p.precision = "16-mixed" then module.half
  else module

/-- Embedding of `MegatronMixedPrecision.optimizer_step`.  The closure is
caller-supplied; its return value is passed in as `closure_result` and its
invocation is recorded as an event.  The fallback
`super().optimizer_step(...)` is an external framework method, recorded as a
single opaque event. -/
def optimizer_step (p : MegatronMixedPrecision) (optimizer : Optimizer)
    (model : ModelRef) (closure_result : Option Nat) : StepOutcome :=
  if !p.amp_02 && !optimizer.isMainParamsWrapper then
    { trace := [Event.super_optimizer_step], error := none }
  else
    match p.scaler with
    | none =>
      match optimizer.fp32_grad_accumulation with
      | none => { trace := [], error := some "AttributeError: fp32_grad_accumulation" }
      | some f =>
        if f then
          { trace := [Event.closure_call, Event.after_closure,
                      Event.optimizer_step_call], error := none }
        else
          { trace := [], error := some "BF16 uses FP32 grad accumulation" }
    | some _ =>
      match optimizer.fp32_grad_accumulation with
      | none => { trace := [], error := some "AttributeError: fp32_grad_accumulation" }
      | some f =>
        if f then
          { trace := [], error := some "FP16 uses FP16 grad accumulation" }
        else
          let skipped_backward := closure_result.isNone
          let base := [Event.closure_call, Event.copy_model_grads_to_main_grads,
                       Event.unscale_main_grads, Event.after_closure]
          if !model.isLightningModule || !model.automatic_optimization
              || !skipped_backward then
            { trace := base ++ [Event.scaler_step, Event.scaler_update],
              error := none }
          else
            { trace := base, error := none }

end MegatronMixedPrecision

/-- The state of a `MegatronHalfPrecision` plugin relevant to its
`optimizer_step` (precision, device and the stored scaler). -/
structure MegatronHalfPrecision where
  precision : String
  device : String
  scaler : Option GradScaler

namespace MegatronHalfPrecision

/-- Embedding of `MegatronHalfPrecision.optimizer_step`.  It differs from the
`MegatronMixedPrecision` version only in its head: instead of an `amp_02`
fallback it asserts that the optimizer is a `MainParamsOptimizerWrapper`. -/
def optimizer_step (p : MegatronHalfPrecision) (optimizer : Optimizer)
    (model : ModelRef) (closure_result : Option Nat) : StepOutcome :=
  if !optimizer.isMainParamsWrapper then
    { trace := [],
      error := some "MegatronHalfPrecisionPlugin supports only the optimizer with master parameters" }
  else
    match p.scaler with
    | none =>
      match optimizer.fp32_grad_accumulation with
      | none => { trace := [], error := some "AttributeError: fp32_grad_accumulation" }
      | some f =>
        if f then
          { trace := [Event.closure_call, Event.after_closure,
                      Event.optimizer_step_call], error := none }
        else
          { trace := [], error := some "BF16 uses FP32 grad accumulation" }
    | some _ =>
      match optimizer.fp32_grad_accumulation with
      | none => { trace := [], error := some "AttributeError: fp32_grad_accumulation" }
      | some f =>
        if f then
          { trace := [], error := some "FP16 uses FP16 grad accumulation" }
        else
          let skipped_backward := closure_result.isNone
          let base := [Event.closure_call, Event.copy_model_grads_to_main_grads,
                       Event.unscale_main_grads, Event.after_closure]
          if !model.isLightningModule || !model.automatic_optimization
              || !skipped_backward then
            { trace := base ++ [Event.scaler_step, Event.scaler_update],
              error := none }
          else
            { trace := base, error := none }

end MegatronHalfPrecision

/-- Nested data passed through the model's forward: tensor leaves inside
list/tuple containers, as traversed by megatron's `conversion_helper`. -/
inductive TData where
  | tensor (t : Tensor)
  | coll (items : List TData)

mutual

/-- Apply a tensor-level conversion to every tensor leaf of a data tree. -/
def TData.mapTensors (f : Tensor → Tensor) : TData → TData
  | TData.tensor t => TData.tensor (f t)
  | TData.coll items => TData.coll (TData.mapTensorsList f items)

/-- `TData.mapTensors` mapped over a list of trees. -/
def TData.mapTensorsList (f : Tensor → Tensor) : List TData → List TData
  | [] => []
  | x :: xs => TData.mapTensors f x :: TData.mapTensorsList f xs

end

mutual

/-- The tensor leaves of a data tree, left to right. -/
def TData.leaves : TData → List Tensor
  | TData.tensor t => [t]
  | TData.coll items => TData.leavesList items

/-- Concatenated leaves of a list of trees. -/
def TData.leavesList : List TData → List Tensor
  | [] => []
  | x :: xs => TData.leaves x ++ TData.leavesList xs

end

/-- Modelled from the spec: `fp32_to_float16` is imported from
`megatron.core.transformer.module`, outside this repository; the spec says
the input hook casts "fp32 leaves to the plugin's configured half-precision
dtype".  It applies the supplied convertor to every float32 tensor leaf and
leaves all other leaves unchanged. -/
def fp32_to_float16 (val : TData) (float16_convertor : Tensor → Tensor) : TData :=
  val.mapTensors (fun t => if t.dtype = DType.float32 then float16_convertor t else t)

/-- Modelled from the spec: `float16_to_fp32` is imported from
`megatron.core.transformer.module`, outside this repository; the spec says
the output hook casts "half-precision leaves back to fp32".  It casts every
float16/bfloat16 tensor leaf to float32 and leaves other leaves unchanged. -/
def float16_to_fp32 (val : TData) : TData :=
  val.mapTensors (fun t =>
    if t.dtype = DType.float16 ∨ t.dtype = DType.bfloat16 then Tensor.float t else t)

/-- Embedding of `MegatronMixedPrecision.convert_input`. -/
def MegatronMixedPrecision.convert_input (p : MegatronMixedPrecision)
    (data : TData) : TData :=
  fp32_to_float16 data p.float16_convertor

/-- Embedding of `MegatronMixedPrecision.convert_output` (`self` is unused by
the method body). -/
def MegatronMixedPrecision.convert_output (p : MegatronMixedPrecision)
    (data : TData) : TData :=
  float16_to_fp32 data

/-- A Python object as seen by `Trainer.add_io` and `copy.deepcopy`: an
atomic leaf carrying an object identity and a type name, or a container (a
`dict` when `isDict`, else a `list`) with its own identity; dict keys are
immutable strings kept alongside the item list. -/
inductive PyObj where
  | atom (id : Nat) (ty : String)
  | container (id : Nat) (isDict : Bool) (keys : List String) (items : List PyObj)

mutual

/-- Embedding of `copy.deepcopy`: rebuild the object graph with fresh
identities drawn from a counter, leaving structure and atomic contents
unchanged.  Returns the copy and the next unused identity. -/
def deepcopyObj (n : Nat) : PyObj → PyObj × Nat
  | PyObj.atom _ ty => (PyObj.atom n ty, n + 1)
  | PyObj.container _ d ks items =>
    let r := deepcopyList (n + 1) items
    (PyObj.container n d ks r.1, r.2)

/-- `deepcopyObj` threaded left to right over a list of objects. -/
def deepcopyList (n : Nat) : List PyObj → List PyObj × Nat
  | [] => ([], n)
  | x :: xs =>
    let r := deepcopyObj n x
    let rs := deepcopyList r.2 xs
    (r.1 :: rs.1, rs.2)

end

mutual

/-- Erase object identities, keeping structure and contents: two objects are
equal up to identity iff their erasures are equal. -/
def eraseIds : PyObj → PyObj
  | PyObj.atom _ ty => PyObj.atom 0 ty
  | PyObj.container _ d ks items => PyObj.container 0 d ks (eraseIdsList items)

/-- `eraseIds` mapped over a list of objects. -/
def eraseIdsList : List PyObj → List PyObj
  | [] => []
  | x :: xs => eraseIds x :: eraseIdsList xs

end

mutual

/-- All object identities appearing in an object graph. -/
def objIds : PyObj → List Nat
  | PyObj.atom i _ => [i]
  | PyObj.container i _ _ items => i :: objIdsList items

/-- Concatenated identities of a list of objects. -/
def objIdsList : List PyObj → List Nat
  | [] => []
  | x :: xs => objIds x ++ objIdsList xs

end

mutual

/-- Embedding of `Trainer.add_io`: recurse to the leaves of dict/list
containers (for a dict, over its values); at a non-container leaf, when
`serialization.find_node_traverser` (modelled by the registry predicate
`reg` on type names) finds nothing, call `track_io` on the leaf type.  The
result is the sequence of types passed to `track_io`. -/
def add_io (reg : String → Bool) : PyObj → List String
  | PyObj.atom _ ty => if reg ty then [] else [ty]
  | PyObj.container _ _ _ items => add_ioList reg items

/-- `add_io` over the elements of a container. -/
def add_ioList (reg : String → Bool) : List PyObj → List String
  | [] => []
  | x :: xs => add_io reg x ++ add_ioList reg xs

end

/-- The dict comprehension in `io_init` (`{k: deepcopy(v) for k, v in
kwargs.items()}`): deep copy each value in order, threading the identity
counter; keys are immutable strings and are not copied. -/
def deepcopyEntries (n : Nat) :
    List (String × PyObj) → List (String × PyObj) × Nat
  | [] => ([], n)
  | (k, v) :: rest =>
    let r := deepcopyObj n v
    let rs := deepcopyEntries r.2 rest
    ((k, r.1) :: rs.1, rs.2)

/-- Model of `fdl.Config(type(self), **cfg_kwargs)`: the captured callable
type name plus the stored keyword arguments. -/
structure FdlConfigKW where
  typeName : String
  kwargs : List (String × PyObj)

/-- Embedding of `Trainer.io_init`: deep copy the kwargs, run `add_io` over
the values of the copied dict, and build the config from the copies.  The
counter `n` supplies fresh object identities for the copies; `reg` models
`serialization.find_node_traverser`.  Returns the config, the types passed
to `track_io`, and the next counter. -/
def Trainer.io_init (trainerType : String) (reg : String → Bool) (n : Nat)
    (kwargs : List (String × PyObj)) : FdlConfigKW × List String × Nat :=
  let cfg_kwargs := deepcopyEntries n kwargs
  let tracked := add_ioList reg (cfg_kwargs.1.map Prod.snd)
  ({ typeName := trainerType, kwargs := cfg_kwargs.1 }, tracked, cfg_kwargs.2)

/-- Model of a `fdl.Config` wrapping a value of type `α`. -/
structure FdlConfig (α : Type) where
  builds : α
  deriving DecidableEq, Repr

/-- Embedding of `fdl.build`: materialize the configured object. -/
def fdl_build {α : Type} (c : FdlConfig α) : α := c.builds

/-- An attribute value on `self.__io__` that is either still a `fdl.Config`
or an already-built value. -/
inductive ConfigOr (α : Type) where
  | config (c : FdlConfig α)
  | value (v : α)
  deriving DecidableEq, Repr

/-- The captured `self.__io__` configuration as `to_fabric` reads it: each
field is `none` exactly when `hasattr` is false. -/
structure TrainerIO (S P : Type) where
  devices : Option Nat
  accelerator : Option String
  strategy : Option (ConfigOr S)
  plugins : Option (ConfigOr P)

/-- The `Fabric(...)` constructor call at the end of `to_fabric`, recorded
as the record of its six arguments. -/
structure FabricArgs (S2 P2 C L : Type) where
  devices : Option Nat
  accelerator : Option String
  strategy : Option S2
  plugins : Option P2
  callbacks : C
  loggers : L
  deriving Repr

/-- Embedding of `Trainer.to_fabric`.  The fabric-side conversion function
`to_fabric` from `nemo.lightning.fabric.conversion` is external and is
passed in as `convS`/`convP` for the strategy and the plugins. -/
def Trainer.to_fabric {S S2 P P2 C L : Type} (convS : S → S2) (convP : P → P2)
    (io : TrainerIO S P) (callbacks : C) (loggers : L) :
    FabricArgs S2 P2 C L :=
  let devices : Option Nat :=
    match io.devices with
    | some d => some d
    | none => none
  let accelerator : Option String :=
    match io.accelerator with
    | some a => some a
    | none => none
  let strategy : Option S2 :=
    match io.strategy with
    | none => none
    | some s0 =>
      let s1 : S :=
        match s0 with
        | ConfigOr.config c => fdl_build c
        | ConfigOr.value v => v
      some (convS s1)
  let plugins : Option P2 :=
    match io.plugins with
    | none => none
    | some p0 =>
      let p1 : P :=
        match p0 with
        | ConfigOr.config c => fdl_build c
        | ConfigOr.value v => v
      some (convP p1)
  { devices := devices, accelerator := accelerator, strategy := strategy,
    plugins := plugins, callbacks := callbacks, loggers := loggers }

/-- `Trainer.to_fabric` as the specification sentence describes it, written
from the spec words for comparison with the embedding: devices and
accelerator are taken from the captured config when those attributes exist
and are `None` otherwise; strategy and plugins, when present, are first
materialized with `fdl.build` if they are `fdl.Config` instances and then
converted with the fabric conversion; callbacks and loggers are passed
through unchanged. -/
def toFabricSpec {S S2 P P2 C L : Type} (convS : S → S2) (convP : P → P2)
    (io : TrainerIO S P) (callbacks : C) (loggers : L) :
    FabricArgs S2 P2 C L :=
  { devices := io.devices
    accelerator := io.accelerator
    strategy := io.strategy.map (fun s0 =>
      convS (match s0 with
             | ConfigOr.config c => fdl_build c
             | ConfigOr.value v => v))
    plugins := io.plugins.map (fun p0 =>
      convP (match p0 with
             | ConfigOr.config c => fdl_build c
             | ConfigOr.value v => v))
    callbacks := callbacks
    loggers := loggers }

/-- The optimizer-step event sequence the specification describes for the
scaler-present (fp16) path: the caller-supplied closure, then copying model
grads to main (fp32) grads, then unscaling the main grads, then the
after-closure hook; finally scaler step and update unless the step is
skipped because the model is a LightningModule with automatic optimization
enabled and the closure returned `None`. -/
def specScalerStepTrace (model : ModelRef) (closure_result : Option Nat) :
    List Event :=
  [Event.closure_call, Event.copy_model_grads_to_main_grads,
   Event.unscale_main_grads, Event.after_closure] ++
  (if model.isLightningModule && model.automatic_optimization
      && closure_result.isNone then []
   else [Event.scaler_step, Event.scaler_update])

/-- The plugin produced by `MegatronMixedPrecision("16-mixed", True, "cuda")`. -/
def examplePlugin16 : MegatronMixedPrecision :=
  { precision := "16-mixed", device := "cuda", scaler := some defaultGradScaler,
    dtype := some DType.float16, float16_convertor := Tensor.half,
    amp_02 := true }

/-- The plugin produced by `MegatronMixedPrecision("bf16-mixed", True, "cuda")`. -/
def examplePluginBf16 : MegatronMixedPrecision :=
  { precision := "bf16-mixed", device := "cuda", scaler := none,
    dtype := some DType.bfloat16, float16_convertor := Tensor.bfloat16,
    amp_02 := true }

/-- A `MegatronHalfPrecision` plugin carrying a scaler (the fp16 path). -/
def exampleHalfPlugin : MegatronHalfPrecision :=
  { precision := "16-mixed", device := "cuda", scaler := some defaultGradScaler }

/-- A master-parameter wrapper doing fp16 grad accumulation
(`fp32_grad_accumulation` false). -/
def exampleWrapperFp16 : Optimizer :=
  Optimizer.mainParamsWrapper (Optimizer.base 0) false true

/-- A LightningModule with automatic optimization enabled. -/
def exampleModel : ModelRef :=
  { isLightningModule := true, automatic_optimization := true }

/-- A small forward input: one fp32 tensor and one integer tensor in a list. -/
def exampleData : TData :=
  TData.coll [TData.tensor { dtype := DType.float32, payload := 7 },
              TData.tensor { dtype := DType.int64, payload := 3 }]

/-- Concrete trainer kwargs: an atomic value and a list containing an object
of an unregistered type; all object identities are below 3. -/
def exampleKwargs : List (String × PyObj) :=
  [("devices", PyObj.atom 0 "int"),
   ("callbacks", PyObj.container 1 false [] [PyObj.atom 2 "ProgressBar"])]

mutual

/-- Mapping a tensor conversion over a data tree maps it over the leaves. -/
theorem leaves_mapTensors (f : Tensor → Tensor) (d : TData) :
    (TData.mapTensors f d).leaves = d.leaves.map f := by
  match d with
  | TData.tensor t => simp [TData.mapTensors, TData.leaves]
  | TData.coll items =>
    simp [TData.mapTensors, TData.leaves, leavesList_mapTensorsList f items]

/-- List version of `leaves_mapTensors`. -/
theorem leavesList_mapTensorsList (f : Tensor → Tensor) (l : List TData) :
    TData.leavesList (TData.mapTensorsList f l) = (TData.leavesList l).map f := by
  match l with
  | [] => simp [TData.mapTensorsList, TData.leavesList]
  | x :: xs =>
    simp [TData.mapTensorsList, TData.leavesList, leaves_mapTensors f x,
      leavesList_mapTensorsList f xs]

end

mutual

/-- Deep copying never decreases the identity counter. -/
theorem le_deepcopyObj_counter (n : Nat) (o : PyObj) :
    n ≤ (deepcopyObj n o).2 := by
  match o with
  | PyObj.atom _ ty => simp [deepcopyObj]
  | PyObj.container _ d ks items =>
    have h := le_deepcopyList_counter (n + 1) items
    simp only [deepcopyObj]
    omega

/-- List version of `le_deepcopyObj_counter`. -/
theorem le_deepcopyList_counter (n : Nat) (l : List PyObj) :
    n ≤ (deepcopyList n l).2 := by
  match l with
  | [] => simp [deepcopyList]
  | x :: xs =>
    have h1 := le_deepcopyObj_counter n x
    have h2 := le_deepcopyList_counter (deepcopyObj n x).2 xs
    simp only [deepcopyList]
    omega

end

mutual

/-- A deep copy is structurally equal to the original up to identities. -/
theorem eraseIds_deepcopyObj (n : Nat) (o : PyObj) :
    eraseIds (deepcopyObj n o).1 = eraseIds o := by
  match o with
  | PyObj.atom _ ty => simp [deepcopyObj, eraseIds]
  | PyObj.container _ d ks items =>
    simp only [deepcopyObj, eraseIds]
    rw [eraseIdsList_deepcopyList (n + 1) items]

/-- List version of `eraseIds_deepcopyObj`. -/
theorem eraseIdsList_deepcopyList (n : Nat) (l : List PyObj) :
    eraseIdsList (deepcopyList n l).1 = eraseIdsList l := by
  match l with
  | [] => simp [deepcopyList, eraseIdsList]
  | x :: xs =>
    simp only [deepcopyList, eraseIdsList]
    rw [eraseIds_deepcopyObj n x, eraseIdsList_deepcopyList (deepcopyObj n x).2 xs]

end

mutual

/-- Every identity in a deep copy is fresh: at least the starting counter. -/
theorem mem_objIds_deepcopyObj (n : Nat) (o : PyObj) :
    ∀ i ∈ objIds (deepcopyObj n o).1, n ≤ i := by
  match o with
  | PyObj.atom _ ty =>
    intro i hi
    simp [deepcopyObj, objIds] at hi
    omega
  | PyObj.container _ d ks items =>
    intro i hi
    simp only [deepcopyObj, objIds, List.mem_cons] at hi
    cases hi with
    | inl h => omega
    | inr h =>
      have := mem_objIdsList_deepcopyList (n + 1) items i h
      omega

/-- List version of `mem_objIds_deepcopyObj`. -/
theorem mem_objIdsList_deepcopyList (n : Nat) (l : List PyObj) :
    ∀ i ∈ objIdsList (deepcopyList n l).1, n ≤ i := by
  match l with
  | [] => intro i hi; simp [deepcopyList, objIdsList] at hi
  | x :: xs =>
    intro i hi
    simp only [deepcopyList, objIdsList, List.mem_append] at hi
    cases hi with
    | inl h => exact mem_objIds_deepcopyObj n x i h
    | inr h =>
      have h2 := mem_objIdsList_deepcopyList (deepcopyObj n x).2 xs i h
      have h3 := le_deepcopyObj_counter n x
      omega

end

/-- Copying the kwargs entries never decreases the identity counter. -/
theorem le_deepcopyEntries_counter (n : Nat) (kw : List (String × PyObj)) :
    n ≤ (deepcopyEntries n kw).2 := by
  induction kw generalizing n with
  | nil => simp [deepcopyEntries]
  | cons kv rest ih =>
    obtain ⟨k, v⟩ := kv
    simp only [deepcopyEntries]
    have h1 := le_deepcopyObj_counter n v
    have h2 := ih (deepcopyObj n v).2
    omega

/-- Copying the kwargs entries keeps the keys, in order. -/
theorem keys_deepcopyEntries (n : Nat) (kw : List (String × PyObj)) :
    (deepcopyEntries n kw).1.map Prod.fst = kw.map Prod.fst := by
  induction kw generalizing n with
  | nil => simp [deepcopyEntries]
  | cons kv rest ih =>
    obtain ⟨k, v⟩ := kv
    simp only [deepcopyEntries, List.map_cons]
    rw [ih (deepcopyObj n v).2]

/-- Copied kwargs values are structurally equal to the originals. -/
theorem eraseIds_deepcopyEntries (n : Nat) (kw : List (String × PyObj)) :
    (deepcopyEntries n kw).1.map (fun kv => eraseIds kv.2) =
      kw.map (fun kv => eraseIds kv.2) := by
  induction kw generalizing n with
  | nil => simp [deepcopyEntries]
  | cons kv rest ih =>
    obtain ⟨k, v⟩ := kv
    simp only [deepcopyEntries, List.map_cons]
    rw [eraseIds_deepcopyObj n v, ih (deepcopyObj n v).2]

/-- Every identity in the copied kwargs values is fresh. -/
theorem mem_objIds_deepcopyEntries (n : Nat) (kw : List (String × PyObj)) :
    ∀ kv ∈ (deepcopyEntries n kw).1, ∀ i ∈ objIds kv.2, n ≤ i := by
  induction kw generalizing n with
  | nil => intro kv h; simp [deepcopyEntries] at h
  | cons kv0 rest ih =>
    obtain ⟨k, v⟩ := kv0
    intro kv hkv i hi
    simp only [deepcopyEntries, List.mem_cons] at hkv
    cases hkv with
    | inl h =>
      subst h
      exact mem_objIds_deepcopyObj n v i hi
    | inr h =>
      have h2 := ih (deepcopyObj n v).2 kv h i hi
      have h3 := le_deepcopyObj_counter n v
      omega

/-- C1: for every call to `MegatronMixedPrecision.optimizer_step` (and
`MegatronHalfPrecision.optimizer_step`) with a non-None scaler and an
optimizer whose `fp32_grad_accumulation` is false, the operations occur in
this order: the caller-supplied closure, then copying model gradients to the
main (fp32) gradients, then unscaling the main gradients, then the
after-closure hook; finally `scaler.step` and `scaler.update` run unless the
model is a LightningModule with `automatic_optimization` enabled and the
closure returned `None`, in which case they are skipped, and in both cases
no exception is raised. -/
theorem C1_optimizer_step_sequencing (p : MegatronMixedPrecision)
    (hp : MegatronHalfPrecision) (optimizer : Optimizer) (model : ModelRef)
    (closure_result : Option Nat) (g g2 : GradScaler)
    (hs : p.scaler = some g) (hs2 : hp.scaler = some g2)
    (hacc : optimizer.fp32_grad_accumulation = some false) :
    p.optimizer_step optimizer model closure_result =
      { trace := specScalerStepTrace model closure_result, error := none }
    ∧ hp.optimizer_step optimizer model closure_result =
      { trace := specScalerStepTrace model closure_result, error := none } := by
  obtain ⟨lm, auto⟩ := model
  cases optimizer with
  | base i => simp [Optimizer.fp32_grad_accumulation] at hacc
  | mainParamsWrapper inner f cb =>
    simp only [Optimizer.fp32_grad_accumulation, Option.some.injEq] at hacc
    subst hacc
    constructor
    · simp only [MegatronMixedPrecision.optimizer_step,
        Optimizer.isMainParamsWrapper, Optimizer.fp32_grad_accumulation, hs,
        specScalerStepTrace, Bool.not_true, Bool.and_false]
      cases lm <;> cases auto <;> cases closure_result <;> simp
    · simp only [MegatronHalfPrecision.optimizer_step,
        Optimizer.isMainParamsWrapper, Optimizer.fp32_grad_accumulation, hs2,
        specScalerStepTrace, Bool.not_true]
      cases lm <;> cases auto <;> cases closure_result <;> simp

/-- Witness for C1: a concrete fp16 run where the closure returned a value,
so the scaler step and update execute after the unscale sequence. -/
theorem C1_optimizer_step_sequencing_witness :
    examplePlugin16.scaler = some defaultGradScaler
    ∧ exampleHalfPlugin.scaler = some defaultGradScaler
    ∧ exampleWrapperFp16.fp32_grad_accumulation = some false
    ∧ (examplePlugin16.optimizer_step exampleWrapperFp16 exampleModel (some 5) =
        { trace := specScalerStepTrace exampleModel (some 5), error := none }
      ∧ exampleHalfPlugin.optimizer_step exampleWrapperFp16 exampleModel
          (some 5) =
        { trace := specScalerStepTrace exampleModel (some 5), error := none }) :=
  ⟨rfl, rfl, rfl,
    C1_optimizer_step_sequencing examplePlugin16 exampleHalfPlugin
      exampleWrapperFp16 exampleModel (some 5) defaultGradScaler
      defaultGradScaler rfl rfl rfl⟩

/-- C2: the assertion-based preconditions of both `optimizer_step`
implementations: with no scaler (bf16 path) the call aborts with the
AssertionError "BF16 uses FP32 grad accumulation" when
`fp32_grad_accumulation` is false, and with a scaler (fp16 path) it aborts
with "FP16 uses FP16 grad accumulation" when `fp32_grad_accumulation` is
true; in every aborting case the event trace is empty, so the closure has
not run and no optimizer state was modified, and no recovery is attempted. -/
theorem C2_assertion_preconditions (p : MegatronMixedPrecision)
    (hp : MegatronHalfPrecision) (optimizer : Optimizer) (model : ModelRef)
    (closure_result : Option Nat)
    (hw : optimizer.isMainParamsWrapper = true) :
    (p.scaler = none → optimizer.fp32_grad_accumulation = some false →
      p.optimizer_step optimizer model closure_result =
        { trace := [], error := some "BF16 uses FP32 grad accumulation" })
    ∧ (∀ g, p.scaler = some g →
      optimizer.fp32_grad_accumulation = some true →
      p.optimizer_step optimizer model closure_result =
        { trace := [], error := some "FP16 uses FP16 grad accumulation" })
    ∧ (hp.scaler = none → optimizer.fp32_grad_accumulation = some false →
      hp.optimizer_step optimizer model closure_result =
        { trace := [], error := some "BF16 uses FP32 grad accumulation" })
    ∧ (∀ g, hp.scaler = some g →
      optimizer.fp32_grad_accumulation = some true →
      hp.optimizer_step optimizer model closure_result =
        { trace := [], error := some "FP16 uses FP16 grad accumulation" }) := by
  cases optimizer with
  | base i => simp [Optimizer.isMainParamsWrapper] at hw
  | mainParamsWrapper inner f cb =>
    refine ⟨?_, ?_, ?_, ?_⟩
    · intro hs hacc
      simp only [Optimizer.fp32_grad_accumulation, Option.some.injEq] at hacc
      subst hacc
      simp [MegatronMixedPrecision.optimizer_step,
        Optimizer.isMainParamsWrapper, Optimizer.fp32_grad_accumulation, hs]
    · intro g hs hacc
      simp only [Optimizer.fp32_grad_accumulation, Option.some.injEq] at hacc
      subst hacc
      simp [MegatronMixedPrecision.optimizer_step,
        Optimizer.isMainParamsWrapper, Optimizer.fp32_grad_accumulation, hs]
    · intro hs hacc
      simp only [Optimizer.fp32_grad_accumulation, Option.some.injEq] at hacc
      subst hacc
      simp [MegatronHalfPrecision.optimizer_step,
        Optimizer.isMainParamsWrapper, Optimizer.fp32_grad_accumulation, hs]
    · intro g hs hacc
      simp only [Optimizer.fp32_grad_accumulation, Option.some.injEq] at hacc
      subst hacc
      simp [MegatronHalfPrecision.optimizer_step,
        Optimizer.isMainParamsWrapper, Optimizer.fp32_grad_accumulation, hs]

/-- Witness for C2: the bf16-path assertion fires on an optimizer doing fp16
grad accumulation, with an empty trace. -/
theorem C2_assertion_preconditions_witness :
    exampleWrapperFp16.isMainParamsWrapper = true
    ∧ examplePluginBf16.scaler = none
    ∧ exampleWrapperFp16.fp32_grad_accumulation = some false
    ∧ examplePluginBf16.optimizer_step exampleWrapperFp16 exampleModel none =
      { trace := [], error := some "BF16 uses FP32 grad accumulation" } :=
  ⟨rfl, rfl, rfl,
    (C2_assertion_preconditions examplePluginBf16 exampleHalfPlugin
      exampleWrapperFp16 exampleModel none rfl).1 rfl rfl⟩

/-- C3: `connect` applies the master-fp32-parameter wrapper exactly when
`amp_02` is true, the optimizer list is non-empty, and the first optimizer
is not already a `MainParamsOptimizerWrapper`; in that case it returns the
model and lr_schedulers unchanged with the first optimizer replaced by
`MainParamsOptimizerWrapper(original, fp32_grad_accum=True,
contiguous_grad_bucket=True)` and the remaining optimizers unchanged; in
every other case all three arguments come back unchanged. -/
theorem C3_connect_wrapping {M L : Type} (p : MegatronMixedPrecision)
    (model : M) (lr_schedulers : L) :
    (∀ (o : Optimizer) (rest : List Optimizer),
      p.amp_02 = true → o.isMainParamsWrapper = false →
      p.connect model (o :: rest) lr_schedulers =
        (model, Optimizer.mainParamsWrapper o true true :: rest, lr_schedulers))
    ∧ (p.connect model [] lr_schedulers = (model, [], lr_schedulers))
    ∧ (∀ optimizers, p.amp_02 = false →
        p.connect model optimizers lr_schedulers =
          (model, optimizers, lr_schedulers))
    ∧ (∀ (o : Optimizer) (rest : List Optimizer),
        o.isMainParamsWrapper = true →
        p.connect model (o :: rest) lr_schedulers =
          (model, o :: rest, lr_schedulers)) := by
  refine ⟨?_, rfl, ?_, ?_⟩
  · intro o rest hamp hwrap
    unfold MegatronMixedPrecision.connect MegatronMixedPrecision.convert_optimizer
    simp [hamp, hwrap]
  · intro optimizers hamp
    cases optimizers with
    | nil => rfl
    | cons o rest =>
      unfold MegatronMixedPrecision.connect
      simp [hamp]
  · intro o rest hwrap
    unfold MegatronMixedPrecision.connect
    simp [hwrap]

/-- Witness for C3: with `amp_02` true, a two-element optimizer list gets its
first element wrapped and its second passed through. -/
theorem C3_connect_wrapping_witness :
    examplePlugin16.amp_02 = true
    ∧ (Optimizer.base 7).isMainParamsWrapper = false
    ∧ examplePlugin16.connect (0 : Nat) [Optimizer.base 7, Optimizer.base 8]
        (1 : Nat) =
      (0, [Optimizer.mainParamsWrapper (Optimizer.base 7) true true,
           Optimizer.base 8], 1) :=
  ⟨rfl, rfl,
    (C3_connect_wrapping examplePlugin16 (0 : Nat) (1 : Nat)).1
      (Optimizer.base 7) [Optimizer.base 8] rfl rfl⟩

/-- C4: `"16-mixed"` sets dtype float16 and installs the half convertor,
`"bf16-mixed"` sets bfloat16 and installs the bfloat16 convertor; and
`convert_module` returns `module.bfloat16()` for `"bf16-mixed"`,
`module.half()` for `"16-mixed"`, and the module unchanged for any other
precision value. -/
theorem C4_dtype_selection :
    (∀ (amp_02 : Bool) (device : String) (scaler0 : Option GradScaler)
        (p : MegatronMixedPrecision),
      MegatronMixedPrecision.init "16-mixed" amp_02 device scaler0 =
        Except.ok p →
      p.dtype = some DType.float16 ∧ p.float16_convertor = Tensor.half)
    ∧ (∀ (amp_02 : Bool) (device : String) (scaler0 : Option GradScaler)
        (p : MegatronMixedPrecision),
      MegatronMixedPrecision.init "bf16-mixed" amp_02 device scaler0 =
        Except.ok p →
      p.dtype = some DType.bfloat16 ∧ p.float16_convertor = Tensor.bfloat16)
    ∧ (∀ (p : MegatronMixedPrecision) (m : TorchModule),
      (p.precision = "bf16-mixed" → p.convert_module m = m.bfloat16)
      ∧ (p.precision = "16-mixed" → p.convert_module m = m.half)
      ∧ (p.precision ≠ "bf16-mixed" → p.precision ≠ "16-mixed" →
          p.convert_module m = m)) := by
  refine ⟨?_, ?_, ?_⟩
  · intro amp_02 device scaler0 p hp
    have hred : MegatronMixedPrecision.init "16-mixed" amp_02 device scaler0 =
        Except.ok
          { precision := "16-mixed", device := device,
            scaler := some defaultGradScaler, dtype := some DType.float16,
            float16_convertor := fun val => Tensor.half val,
            amp_02 := amp_02 } := rfl
    rw [hred] at hp
    cases hp
    exact ⟨rfl, rfl⟩
  · intro amp_02 device scaler0 p hp
    have hred : MegatronMixedPrecision.init "bf16-mixed" amp_02 device scaler0 =
        Except.ok
          { precision := "bf16-mixed", device := device,
            scaler := none, dtype := some DType.bfloat16,
            float16_convertor := fun val => Tensor.bfloat16 val,
            amp_02 := amp_02 } := rfl
    rw [hred] at hp
    cases hp
    exact ⟨rfl, rfl⟩
  · intro p m
    refine ⟨?_, ?_, ?_⟩
    · intro h
      unfold MegatronMixedPrecision.convert_module
      rw [if_pos h]
    · intro h
      unfold MegatronMixedPrecision.convert_module
      rw [h, if_neg (by decide : ¬("16-mixed" : String) = "bf16-mixed"),
        if_pos rfl]
    · intro h1 h2
      unfold MegatronMixedPrecision.convert_module
      rw [if_neg h1, if_neg h2]

/-- Witness for C4: the `"16-mixed"` construction and its stored dtype and
convertor. -/
theorem C4_dtype_selection_witness :
    MegatronMixedPrecision.init "16-mixed" true "cuda" none =
      Except.ok examplePlugin16
    ∧ (examplePlugin16.dtype = some DType.float16
      ∧ examplePlugin16.float16_convertor = Tensor.half) :=
  ⟨rfl, C4_dtype_selection.1 true "cuda" none examplePlugin16 rfl⟩

/-- C5: the stored scaler is determined by the precision mode alone:
`"bf16-mixed"` stores no scaler and any other precision stores a newly
created `GradScaler` with init_scale `2**32`, growth_interval `1000` and
hysteresis `2`; a fully constructed plugin carries exactly the scaler chosen
at base initialisation. -/
theorem C5_scaler_state (precision device : String)
    (scaler0 : Option GradScaler) :
    ((MegatronMixedPrecision.initBase precision device scaler0).scaler = none
        ↔ precision = "bf16-mixed")
    ∧ (precision ≠ "bf16-mixed" →
        (MegatronMixedPrecision.initBase precision device scaler0).scaler =
          some { init_scale := 2 ^ 32, growth_interval := 1000,
                 hysteresis := 2 })
    ∧ (∀ (amp_02 : Bool) (p : MegatronMixedPrecision),
        MegatronMixedPrecision.init precision amp_02 device scaler0 =
          Except.ok p →
        p.scaler =
          (MegatronMixedPrecision.initBase precision device scaler0).scaler) := by
  refine ⟨?_, ?_, ?_⟩
  · unfold MegatronMixedPrecision.initBase
    by_cases h : precision = "bf16-mixed" <;> simp [h]
  · intro h
    unfold MegatronMixedPrecision.initBase
    simp [h, defaultGradScaler]
  · intro amp p hp
    unfold MegatronMixedPrecision.init at hp
    split at hp
    · cases hp; rfl
    · split at hp
      · cases hp; rfl
      · simp at hp

/-- Witness for C5: at `"16-mixed"` the base initialisation stores the fresh
default GradScaler. -/
theorem C5_scaler_state_witness :
    ("16-mixed" : String) ≠ "bf16-mixed"
    ∧ (MegatronMixedPrecision.initBase "16-mixed" "cuda" none).scaler =
      some { init_scale := 2 ^ 32, growth_interval := 1000, hysteresis := 2 } :=
  ⟨by decide, (C5_scaler_state "16-mixed" "cuda" none).2.1 (by decide)⟩

/-- C6: the forward cast hooks are symmetric around the forward pass:
`convert_input` returns `fp32_to_float16(data, self.float16_convertor)` and
`convert_output` returns `float16_to_fp32(data)`; for any plugin the
constructor accepts, the input hook casts exactly the fp32 leaves to the
plugin's configured half-precision dtype and the output hook casts exactly
the half-precision leaves back to fp32. -/
theorem C6_cast_hooks :
    (∀ (p : MegatronMixedPrecision) (data : TData),
      p.convert_input data = fp32_to_float16 data p.float16_convertor
      ∧ p.convert_output data = float16_to_fp32 data)
    ∧ (∀ (precision : String) (amp_02 : Bool) (device : String)
        (scaler0 : Option GradScaler) (p : MegatronMixedPrecision)
        (data : TData),
      MegatronMixedPrecision.init precision amp_02 device scaler0 =
        Except.ok p →
      ∃ dt, p.dtype = some dt ∧
        (p.convert_input data).leaves =
          data.leaves.map (fun t =>
            if t.dtype = DType.float32 then { t with dtype := dt } else t)
        ∧ (p.convert_output data).leaves =
          data.leaves.map (fun t =>
            if t.dtype = DType.float16 ∨ t.dtype = DType.bfloat16 then
              Tensor.float t
            else t)) := by
  constructor
  · intro p data
    exact ⟨rfl, rfl⟩
  · intro precision amp_02 device scaler0 p data hp
    unfold MegatronMixedPrecision.init at hp
    split at hp
    · cases hp
      refine ⟨DType.float16, rfl, ?_, ?_⟩
      · simp only [MegatronMixedPrecision.convert_input, fp32_to_float16]
        rw [leaves_mapTensors]
        rfl
      · simp only [MegatronMixedPrecision.convert_output, float16_to_fp32]
        rw [leaves_mapTensors]
    · split at hp
      · cases hp
        refine ⟨DType.bfloat16, rfl, ?_, ?_⟩
        · simp only [MegatronMixedPrecision.convert_input, fp32_to_float16]
          rw [leaves_mapTensors]
          rfl
        · simp only [MegatronMixedPrecision.convert_output, float16_to_fp32]
          rw [leaves_mapTensors]
      · simp at hp

/-- Witness for C6: the `"16-mixed"` plugin applied to a list holding one
fp32 tensor and one integer tensor. -/
theorem C6_cast_hooks_witness :
    MegatronMixedPrecision.init "16-mixed" true "cuda" none =
      Except.ok examplePlugin16
    ∧ ∃ dt, examplePlugin16.dtype = some dt ∧
        (examplePlugin16.convert_input exampleData).leaves =
          exampleData.leaves.map (fun t =>
            if t.dtype = DType.float32 then { t with dtype := dt } else t)
        ∧ (examplePlugin16.convert_output exampleData).leaves =
          exampleData.leaves.map (fun t =>
            if t.dtype = DType.float16 ∨ t.dtype = DType.bfloat16 then
              Tensor.float t
            else t) :=
  ⟨rfl, C6_cast_hooks.2 "16-mixed" true "cuda" none examplePlugin16
    exampleData rfl⟩

/-- C7: `io_init` captures configuration without aliasing or mutating its
arguments: the stored kwargs keep the keys and are structurally equal copies
of the supplied values, every object identity in the stored copies is
disjoint from the identities of the caller's originals (so nothing is
shared, given the originals predate the fresh-identity counter), and
`add_io` is applied to the copies. -/
theorem C7_io_init_deepcopy (trainerType : String) (reg : String → Bool)
    (n : Nat) (kwargs : List (String × PyObj))
    (hfresh : ∀ kv ∈ kwargs, ∀ i ∈ objIds kv.2, i < n) :
    ((Trainer.io_init trainerType reg n kwargs).1.kwargs.map Prod.fst =
        kwargs.map Prod.fst)
    ∧ ((Trainer.io_init trainerType reg n kwargs).1.kwargs.map
          (fun kv => eraseIds kv.2) =
        kwargs.map (fun kv => eraseIds kv.2))
    ∧ (∀ kv ∈ (Trainer.io_init trainerType reg n kwargs).1.kwargs,
        ∀ i ∈ objIds kv.2, ∀ kv2 ∈ kwargs, i ∉ objIds kv2.2)
    ∧ ((Trainer.io_init trainerType reg n kwargs).2.1 =
        add_ioList reg
          ((Trainer.io_init trainerType reg n kwargs).1.kwargs.map
            Prod.snd)) := by
  refine ⟨keys_deepcopyEntries n kwargs, eraseIds_deepcopyEntries n kwargs,
    ?_, rfl⟩
  intro kv hkv i hi kv2 hkv2 hmem
  have h1 := mem_objIds_deepcopyEntries n kwargs kv hkv i hi
  have h2 := hfresh kv2 hkv2 i hmem
  omega

/-- Witness for C7: concrete kwargs whose identities all lie below the
counter 3. -/
theorem C7_io_init_deepcopy_witness :
    (∀ kv ∈ exampleKwargs, ∀ i ∈ objIds kv.2, i < 3)
    ∧ (((Trainer.io_init "Trainer" (fun _ => false) 3 exampleKwargs).1.kwargs.map
          Prod.fst = exampleKwargs.map Prod.fst)
      ∧ ((Trainer.io_init "Trainer" (fun _ => false) 3
            exampleKwargs).1.kwargs.map (fun kv => eraseIds kv.2) =
          exampleKwargs.map (fun kv => eraseIds kv.2))
      ∧ (∀ kv ∈ (Trainer.io_init "Trainer" (fun _ => false) 3
            exampleKwargs).1.kwargs,
          ∀ i ∈ objIds kv.2, ∀ kv2 ∈ exampleKwargs, i ∉ objIds kv2.2)
      ∧ ((Trainer.io_init "Trainer" (fun _ => false) 3 exampleKwargs).2.1 =
          add_ioList (fun _ => false)
            ((Trainer.io_init "Trainer" (fun _ => false) 3
              exampleKwargs).1.kwargs.map Prod.snd))) :=
  ⟨by decide,
    C7_io_init_deepcopy "Trainer" (fun _ => false) 3 exampleKwargs (by decide)⟩

/-- C8: `to_fabric` builds the Fabric arguments from the captured
configuration exactly as specified: devices and accelerator from the
captured attributes when present (None otherwise), strategy and plugins
materialized with `fdl.build` when still configs and then converted, and
callbacks and loggers passed through unchanged. -/
theorem C8_to_fabric_spec {S S2 P P2 C L : Type} (convS : S → S2)
    (convP : P → P2) (io : TrainerIO S P) (callbacks : C) (loggers : L) :
    Trainer.to_fabric convS convP io callbacks loggers =
      toFabricSpec convS convP io callbacks loggers := by
  obtain ⟨dev, acc, strat, plug⟩ := io
  unfold Trainer.to_fabric toFabricSpec
  cases dev <;> cases acc <;> cases strat <;> cases plug <;> simp

/-- C9: the `scaler` argument of `MegatronMixedPrecision.__init__` is
ignored: two constructions differing only in that argument produce the same
result (and the same stored base state), whose scaler is None for
`"bf16-mixed"` and the fresh default GradScaler otherwise. -/
theorem C9_scaler_arg_ignored (precision device : String) (amp_02 : Bool)
    (s1 s2 : Option GradScaler) :
    MegatronMixedPrecision.init precision amp_02 device s1 =
      MegatronMixedPrecision.init precision amp_02 device s2
    ∧ MegatronMixedPrecision.initBase precision device s1 =
        MegatronMixedPrecision.initBase precision device s2
    ∧ (MegatronMixedPrecision.initBase precision device s1).scaler =
        (if precision = "bf16-mixed" then none else some defaultGradScaler) :=
  ⟨rfl, rfl, rfl⟩

/-- C10: the constructor completes exactly for the two supported precision
strings and raises for every other value, because the local
`float16_convertor` is never bound before the assignment
`self.float16_convertor = float16_convertor` executes. -/
theorem C10_constructor_precisions (amp_02 : Bool) (device : String)
    (scaler0 : Option GradScaler) :
    (∃ p, MegatronMixedPrecision.init "16-mixed" amp_02 device scaler0 =
      Except.ok p)
    ∧ (∃ p, MegatronMixedPrecision.init "bf16-mixed" amp_02 device scaler0 =
      Except.ok p)
    ∧ ∀ precision, precision ≠ "16-mixed" → precision ≠ "bf16-mixed" →
        MegatronMixedPrecision.init precision amp_02 device scaler0 =
          Except.error
            "UnboundLocalError: local variable float16_convertor referenced before assignment" := by
  refine ⟨⟨_, rfl⟩, ⟨_, rfl⟩, ?_⟩
  intro precision h16 hbf
  unfold MegatronMixedPrecision.init
  simp [h16, hbf]

/-- Witness for C10: the unsupported precision `"32-true"`. -/
theorem C10_constructor_precisions_witness :
    ("32-true" : String) ≠ "16-mixed" ∧ ("32-true" : String) ≠ "bf16-mixed"
    ∧ MegatronMixedPrecision.init "32-true" true "cuda" none =
      Except.error
        "UnboundLocalError: local variable float16_convertor referenced before assignment" :=
  ⟨by decide, by decide,
    (C10_constructor_precisions true "cuda" none).2.2 "32-true" (by decide)
      (by decide)⟩
